import Mathlib

set_option maxRecDepth 10000

/-!
Verification of the fake-account scoring app (`src/app.py`).

The embedding below translates the parts of `app.py` that the spec's
testable properties concern:

* `compute_fake_score` (app.py lines 126-175): the rule-based scoring
  engine.  Each `if`/`elif`/`else` block of the Python function becomes a
  rule function returning `(delta, goodAppends, badAppends)`; the engine
  sums the deltas, concatenates the appends in evaluation order, and
  clamps the total with `max(0, min(100, score))`.
* `get_user_and_tweets` (app.py lines 76-121): the two provider attempts
  perform network and subprocess I/O, so they enter the model as
  parameters (each attempt's outcome is an `Option` profile and an
  `Option` post list, `none` standing for Python `None`); the resolver's
  own branching is translated directly.

Modelling conventions:
* Python `None` becomes `Option.none`; dict fields read with `.get`
  become `Option` fields.
* Timestamps are integers (epoch seconds).  `user["created_at"]` is a
  string that `dateutil.parser.parse` may fail on, so the profile carries
  `created_at : Option Int` — `some t` when the string is present and
  parseable as the instant `t`, `none` when absent or unparseable, in
  which case the Python function raises an uncaught exception; the
  embedding returns `none` there.  `datetime.now(...)` is the explicit
  argument `now`.  Python's `timedelta.days` is floor division of the
  second difference by 86400, i.e. `Int.fdiv`.
* The float expression `(link_tweets / total_tweets) * 100` is modelled
  with exact rational arithmetic, and the `"{:.0f}"` format with
  round-half-to-even on the rational value.
* A tweet dict is read only through `t.get("text", "")` in the scoring
  engine, so `Tweet` carries the text field.
-/

structure PublicMetrics where
  followers_count : Int
  following_count : Int
  tweet_count : Int
deriving DecidableEq

structure User where
  description : Option String
  profile_image_url : Option String
  verified : Bool
  created_at : Option Int
  public_metrics : PublicMetrics
deriving DecidableEq

structure Tweet where
  text : String
deriving DecidableEq

structure ScoreResult where
  score : Int
  account_age_days : Int
  good : List String
  bad : List String
deriving DecidableEq

/-- Does `s` start with the pattern `pat`?  (List-of-chars version.) -/
def listStartsW : List Char → List Char → Bool
  | [], _ => true
  | _ :: _, [] => false
  | a :: pat, b :: s => a == b && listStartsW pat s

/-- Does `pat` occur as a contiguous substring of `s`?  This is Python's
`pat in s` on strings. -/
def listHasSub (pat : List Char) : List Char → Bool
  | [] => listStartsW pat []
  | c :: rest => listStartsW pat (c :: rest) || listHasSub pat rest

/-- Python `pat in s` for strings. -/
def strHasSub (pat s : String) : Bool :=
  listHasSub pat.data s.data

/-- One step of `re.search(r"http[s]?://|www\.", text)`: does the pattern
match at the very start of `s`?  The alternation matches exactly when one
of the three literal alternatives is a prefix. -/
def linkRegexAt (s : List Char) : Bool :=
  listStartsW "http://".data s || listStartsW "https://".data s ||
    listStartsW "www.".data s

/-- `re.search` tries the pattern at every position (app.py line 165). -/
def linkRegexSearch : List Char → Bool
  | [] => linkRegexAt []
  | c :: rest => linkRegexAt (c :: rest) || linkRegexSearch rest

/-- `re.search(r"http[s]?://|www\.", text)` as a Boolean (app.py line 165).
Note the Python call uses no `re.IGNORECASE` flag. -/
def hasLink (s : String) : Bool :=
  linkRegexSearch s.data

/-- Round half to even, the tie rule of Python's `"{:.0f}"` formatting. -/
def roundHalfEven (q : Rat) : Int :=
  let f : Int := q.floor
  let r : Rat := q - (f : Rat)
  if r < 1 / 2 then f
  else if 1 / 2 < r then f + 1
  else if f % 2 = 0 then f else f + 1

/-- Python `f"{x:.0f}"` for a non-negative value. -/
def fmt0f (q : Rat) : String :=
  toString (roundHalfEven q)

/-- app.py lines 131-135: follower/following ratio rule.  Returns
`(delta, appends to good, appends to bad)`. -/
def rule1 (followers following : Int) : Int × List String × List String :=
  if followers < 50 ∧ following > 300 then
    (30, [],
      ["Suspicious Follower Ratio (" ++ toString followers ++
        " followers / " ++ toString following ++ " following): +30"])
  else
    (0, ["Account has a healthy follower/following ratio."], [])

/-- app.py lines 136-140: bio length rule.  `user.get("description") or ""`
turns both a missing bio and an empty bio into `""`. -/
def rule2 (description : Option String) : Int × List String × List String :=
  if 10 < (description.getD "").length then
    (0, ["Profile has a descriptive bio."], [])
  else
    (20, [], ["Profile has no significant bio: +20"])

/-- app.py lines 141-145: avatar rule.  The Python condition is
`user.get("profile_image_url") and 'default_profile' not in ...`: the URL
must be truthy (present and non-empty) and must not contain the literal
substring `default_profile`. -/
def rule3 (avatar : Option String) : Int × List String × List String :=
  if (match avatar with
      | none => false
      | some s => !(s == "") && !(strHasSub "default_profile" s)) then
    (0, ["Account has a custom profile picture."], [])
  else
    (20, [], ["Account is using a default profile picture: +20"])

/-- app.py lines 146-148: verification rule.  No `else` branch in the
source: an unverified account contributes nothing. -/
def rule4 (verified : Bool) : Int × List String × List String :=
  if verified then
    (-25, ["Account is verified by X: -25"], [])
  else
    (0, [], [])

/-- app.py lines 152-159: account age rule. -/
def rule5 (age : Int) : Int × List String × List String :=
  if age < 30 then
    (25, [], ["Account is very new (" ++ toString age ++ " days old): +25"])
  else if age < 180 then
    (15, [],
      ["Account is relatively new (" ++ toString age ++ " days old): +15"])
  else
    (0, ["Account is well-established and has existed for a long time."], [])

/-- app.py lines 160-163: tweet count rule, guarded by `if tweets:` — it
fires only on a non-empty list, and has no `else` branch of its own. -/
def rule6 (tweets : List Tweet) : Int × List String × List String :=
  if tweets ≠ [] ∧ tweets.length < 10 then
    (20, [],
      ["Account has very few recent tweets (" ++ toString tweets.length ++
        " found): +20"])
  else
    (0, [], [])

/-- app.py lines 164-174: link ratio rule, guarded by `if tweets:`. -/
def rule7 (tweets : List Tweet) : Int × List String × List String :=
  if tweets = [] then (0, [], [])
  else
    let total := tweets.length
    let links := tweets.countP (fun t => hasLink t.text)
    let ratio : Rat := ((links : Rat) / (total : Rat)) * 100
    if ratio > 50 then
      (20, [],
        ["Very high link percentage in recent tweets (" ++ fmt0f ratio ++
          "%): +20"])
    else if ratio > 20 then
      (10, [],
        ["High link percentage in recent tweets (" ++ fmt0f ratio ++
          "%): +10"])
    else
      (0, ["Low percentage of tweets containing links."], [])

/-- The seven rule blocks of `compute_fake_score` in evaluation order:
summed deltas, and the `good`/`bad` lists built by the `append` calls. -/
def scoreParts (user : User) (tweets : List Tweet) (age : Int) :
    Int × List String × List String :=
  let p1 := rule1 user.public_metrics.followers_count
    user.public_metrics.following_count
  let p2 := rule2 user.description
  let p3 := rule3 user.profile_image_url
  let p4 := rule4 user.verified
  let p5 := rule5 age
  let p6 := rule6 tweets
  let p7 := rule7 tweets
  (p1.1 + p2.1 + p3.1 + p4.1 + p5.1 + p6.1 + p7.1,
    p1.2.1 ++ p2.2.1 ++ p3.2.1 ++ p4.2.1 ++ p5.2.1 ++ p6.2.1 ++ p7.2.1,
    p1.2.2 ++ p2.2.2 ++ p3.2.2 ++ p4.2.2 ++ p5.2.2 ++ p6.2.2 ++ p7.2.2)

/-- app.py lines 126-175.  `none` models the uncaught exception raised by
`dtparser.parse(user["created_at"])` when the field is absent or
unparseable (the parse sits mid-function, but no earlier statement can
return, so the result is `none` exactly when the parse fails).  The final
return is `max(0, min(100, score)), account_age_days, reasons`. -/
def compute_fake_score (user : User) (tweets : List Tweet) (now : Int) :
    Option ScoreResult :=
  match user.created_at with
  | none => none
  | some created =>
    let age := Int.fdiv (now - created) 86400
    let parts := scoreParts user tweets age
    some { score := max 0 (min 100 parts.1), account_age_days := age,
           good := parts.2.1, bad := parts.2.2 }

/-- app.py line 116: the string assigned to `source` on the X-API path —
a token-like literal, the fixed label of the primary provider's branch. -/
def xSourceLabel : String :=
  "AAAAAAAAAAAAAAAAAAAAAKns3wEAAAAAz5GPv7wRECqGOGcR4rfooc%2BTm1M%3DV1IiUiNtJJnyKhfC2P5qzJawtr1c93UMRnnxcoiszhwz8HmrbF"

/-- app.py lines 115-121: the resolver's own branching.  `xRes` is the
outcome of `try_x_api_user` and `snsRes` of `try_snscrape_user`; both
helpers return `(None, None)` on any failure, so each outcome is an
`Option` profile paired with an `Option` tweet list.  `if not user` tests
Python truthiness: the fallback runs exactly when the primary profile is
`None`. -/
def get_user_and_tweets
    (xRes snsRes : Option User × Option (List Tweet)) :
    Option User × Option (List Tweet) × String :=
  match xRes.1 with
  | some u => (some u, xRes.2, xSourceLabel)
  | none => (snsRes.1, snsRes.2, "snscrape")

/-- The reason string the verification rule (app.py line 148) appends. -/
def verifiedMsg : String := "Account is verified by X: -25"

/-- The rules evaluated on a given input, as `(delta, good, bad)` triples:
the five profile rules always run, while the two tweet rules (app.py lines
160-174) sit inside `if tweets:` and are evaluated only on a non-empty
list.  This is the per-rule view of `scoreParts` used to state the spec's
"each evaluated rule" invariant. -/
def evaluatedRuleParts (user : User) (tweets : List Tweet) (age : Int) :
    List (Int × List String × List String) :=
  [rule1 user.public_metrics.followers_count user.public_metrics.following_count,
   rule2 user.description,
   rule3 user.profile_image_url,
   rule4 user.verified,
   rule5 age] ++
    (if tweets = [] then [] else [rule6 tweets, rule7 tweets])

/-- Character-wise lowercasing (the case-folding relevant to ASCII URL
patterns). -/
def lowerStr (s : String) : String :=
  ⟨s.data.map Char.toLower⟩

/-- Modelled from the spec: the claim's link-detection predicate — the
text "contains the substring `http://`, `https://`, or `www.`, matched
case-insensitively (substring search)".  Stated for comparison with the
code's `hasLink`; the patterns are lowercase, so matching them
case-insensitively is substring search in the lowercased text. -/
def claimLinkCI (s : String) : Bool :=
  strHasSub "http://" (lowerStr s) || strHasSub "https://" (lowerStr s) ||
    strHasSub "www." (lowerStr s)

/-! Concrete sample inputs used by counterexamples and witnesses. -/

/-- An old, unverified account with healthy metrics, a bio and a custom
avatar, created at epoch second 0. -/
def sampleOld : User :=
  { description := some "a descriptive biography",
    profile_image_url := some "https://cdn.example.com/me.jpg",
    verified := false, created_at := some 0,
    public_metrics :=
      { followers_count := 100, following_count := 100, tweet_count := 5 } }

/-- The spec's second example scenario (§8): followers=10000,
following=200, a 28-character bio, a custom avatar, verified, created at
epoch second 0. -/
def sampleVerified : User :=
  { description := some "30+ char biography text here",
    profile_image_url := some "https://cdn.example.com/avatar.jpg",
    verified := true, created_at := some 0,
    public_metrics :=
      { followers_count := 10000, following_count := 200, tweet_count := 20 } }

/-- Twenty posts, exactly one of which contains a link. -/
def samplePosts20 : List Tweet :=
  { text := "check https://example.com" } ::
    List.replicate 19 { text := "hello world" }

/-- `compute_fake_score sampleOld [] 432000` (5 days after creation). -/
def resultOld5 : ScoreResult :=
  { score := 25, account_age_days := 5,
    good := ["Account has a healthy follower/following ratio.",
      "Profile has a descriptive bio.",
      "Account has a custom profile picture."],
    bad := ["Account is very new (5 days old): +25"] }

/-- `compute_fake_score sampleOld [] 86400000` (1000 days after creation). -/
def resultOld1000 : ScoreResult :=
  { score := 0, account_age_days := 1000,
    good := ["Account has a healthy follower/following ratio.",
      "Profile has a descriptive bio.",
      "Account has a custom profile picture.",
      "Account is well-established and has existed for a long time."],
    bad := [] }

/-- `compute_fake_score sampleVerified [] 86400000`. -/
def resultVerified : ScoreResult :=
  { score := 0, account_age_days := 1000,
    good := ["Account has a healthy follower/following ratio.",
      "Profile has a descriptive bio.",
      "Account has a custom profile picture.",
      "Account is verified by X: -25",
      "Account is well-established and has existed for a long time."],
    bad := [] }

/-- `compute_fake_score sampleVerified samplePosts20 86400000` — the
spec's second example scenario. -/
def resultScenario : ScoreResult :=
  { score := 0, account_age_days := 1000,
    good := ["Account has a healthy follower/following ratio.",
      "Profile has a descriptive bio.",
      "Account has a custom profile picture.",
      "Account is verified by X: -25",
      "Account is well-established and has existed for a long time.",
      "Low percentage of tweets containing links."],
    bad := [] }

/-! ### Helper lemmas -/

theorem strDataAppend (a b : String) : (a ++ b).data = a.data ++ b.data := rfl

theorem plus_mem_append_right (a b : String) (h : '+' ∈ b.data) :
    '+' ∈ (a ++ b).data := by
  rw [strDataAppend]
  exact List.mem_append_right _ h

theorem rule1_plus (f g : Int) :
    (∀ s ∈ (rule1 f g).2.1, '+' ∉ s.data) ∧
      ∀ s ∈ (rule1 f g).2.2, '+' ∈ s.data := by
  unfold rule1
  split
  · refine ⟨by simp, ?_⟩
    intro s hs
    simp only [List.mem_singleton] at hs
    subst hs
    exact plus_mem_append_right _ _ (by decide)
  · refine ⟨?_, by simp⟩
    intro s hs
    simp only [List.mem_singleton] at hs
    subst hs
    decide

theorem rule2_plus (d : Option String) :
    (∀ s ∈ (rule2 d).2.1, '+' ∉ s.data) ∧
      ∀ s ∈ (rule2 d).2.2, '+' ∈ s.data := by
  unfold rule2
  split
  · exact ⟨by intro s hs; simp only [List.mem_singleton] at hs; subst hs; decide,
      by simp⟩
  · exact ⟨by simp,
      by intro s hs; simp only [List.mem_singleton] at hs; subst hs; decide⟩

theorem rule3_plus (a : Option String) :
    (∀ s ∈ (rule3 a).2.1, '+' ∉ s.data) ∧
      ∀ s ∈ (rule3 a).2.2, '+' ∈ s.data := by
  unfold rule3
  split
  · exact ⟨by intro s hs; simp only [List.mem_singleton] at hs; subst hs; decide,
      by simp⟩
  · exact ⟨by simp,
      by intro s hs; simp only [List.mem_singleton] at hs; subst hs; decide⟩

theorem rule4_plus (v : Bool) :
    (∀ s ∈ (rule4 v).2.1, '+' ∉ s.data) ∧
      ∀ s ∈ (rule4 v).2.2, '+' ∈ s.data := by
  unfold rule4
  split
  · exact ⟨by intro s hs; simp only [List.mem_singleton] at hs; subst hs; decide,
      by simp⟩
  · exact ⟨by simp, by simp⟩

theorem rule5_plus (age : Int) :
    (∀ s ∈ (rule5 age).2.1, '+' ∉ s.data) ∧
      ∀ s ∈ (rule5 age).2.2, '+' ∈ s.data := by
  unfold rule5
  split
  · refine ⟨by simp, ?_⟩
    intro s hs
    simp only [List.mem_singleton] at hs
    subst hs
    exact plus_mem_append_right _ _ (by decide)
  · split
    · refine ⟨by simp, ?_⟩
      intro s hs
      simp only [List.mem_singleton] at hs
      subst hs
      exact plus_mem_append_right _ _ (by decide)
    · exact ⟨by intro s hs; simp only [List.mem_singleton] at hs; subst hs; decide,
        by simp⟩

theorem rule6_plus (t : List Tweet) :
    (∀ s ∈ (rule6 t).2.1, '+' ∉ s.data) ∧
      ∀ s ∈ (rule6 t).2.2, '+' ∈ s.data := by
  unfold rule6
  split
  · refine ⟨by simp, ?_⟩
    intro s hs
    simp only [List.mem_singleton] at hs
    subst hs
    exact plus_mem_append_right _ _ (by decide)
  · exact ⟨by simp, by simp⟩

theorem rule7_plus (t : List Tweet) :
    (∀ s ∈ (rule7 t).2.1, '+' ∉ s.data) ∧
      ∀ s ∈ (rule7 t).2.2, '+' ∈ s.data := by
  unfold rule7
  split
  · exact ⟨by simp, by simp⟩
  · dsimp only
    split
    · refine ⟨by simp, ?_⟩
      intro s hs
      simp only [List.mem_singleton] at hs
      subst hs
      exact plus_mem_append_right _ _ (by decide)
    · split
      · refine ⟨by simp, ?_⟩
        intro s hs
        simp only [List.mem_singleton] at hs
        subst hs
        exact plus_mem_append_right _ _ (by decide)
      · exact ⟨by intro s hs; simp only [List.mem_singleton] at hs; subst hs; decide,
          by simp⟩

theorem scoreParts_good_plus (u : User) (t : List Tweet) (age : Int) :
    ∀ s ∈ (scoreParts u t age).2.1, '+' ∉ s.data := by
  intro s hs
  unfold scoreParts at hs
  dsimp only at hs
  simp only [List.mem_append] at hs
  rcases hs with ((((((h | h) | h) | h) | h) | h) | h)
  · exact (rule1_plus _ _).1 s h
  · exact (rule2_plus _).1 s h
  · exact (rule3_plus _).1 s h
  · exact (rule4_plus _).1 s h
  · exact (rule5_plus _).1 s h
  · exact (rule6_plus _).1 s h
  · exact (rule7_plus _).1 s h

theorem scoreParts_bad_plus (u : User) (t : List Tweet) (age : Int) :
    ∀ s ∈ (scoreParts u t age).2.2, '+' ∈ s.data := by
  intro s hs
  unfold scoreParts at hs
  dsimp only at hs
  simp only [List.mem_append] at hs
  rcases hs with ((((((h | h) | h) | h) | h) | h) | h)
  · exact (rule1_plus _ _).2 s h
  · exact (rule2_plus _).2 s h
  · exact (rule3_plus _).2 s h
  · exact (rule4_plus _).2 s h
  · exact (rule5_plus _).2 s h
  · exact (rule6_plus _).2 s h
  · exact (rule7_plus _).2 s h

theorem rule1_count_vmsg (f g : Int) :
    ((rule1 f g).2.1).count verifiedMsg = 0 := by
  unfold rule1; split <;> rfl

theorem rule2_count_vmsg (d : Option String) :
    ((rule2 d).2.1).count verifiedMsg = 0 := by
  unfold rule2; split <;> rfl

theorem rule3_count_vmsg (a : Option String) :
    ((rule3 a).2.1).count verifiedMsg = 0 := by
  unfold rule3; split <;> rfl

theorem rule4_count_vmsg (v : Bool) :
    ((rule4 v).2.1).count verifiedMsg = if v then 1 else 0 := by
  cases v <;> rfl

theorem rule5_count_vmsg (age : Int) :
    ((rule5 age).2.1).count verifiedMsg = 0 := by
  unfold rule5
  split
  · rfl
  · split <;> rfl

theorem rule6_count_vmsg (t : List Tweet) :
    ((rule6 t).2.1).count verifiedMsg = 0 := by
  unfold rule6; split <;> rfl

theorem rule7_count_vmsg (t : List Tweet) :
    ((rule7 t).2.1).count verifiedMsg = 0 := by
  unfold rule7
  split
  · rfl
  · dsimp only
    split
    · rfl
    · split <;> rfl

theorem scoreParts_count_vmsg (u : User) (t : List Tweet) (age : Int) :
    ((scoreParts u t age).2.1).count verifiedMsg = (if u.verified then 1 else 0) ∧
      ((scoreParts u t age).2.2).count verifiedMsg = 0 := by
  constructor
  · unfold scoreParts
    dsimp only
    simp only [List.count_append, rule1_count_vmsg, rule2_count_vmsg,
      rule3_count_vmsg, rule4_count_vmsg, rule5_count_vmsg, rule6_count_vmsg,
      rule7_count_vmsg]
    cases u.verified <;> simp
  · rw [List.count_eq_zero]
    intro hmem
    exact absurd (scoreParts_bad_plus u t age _ hmem) (by decide)

theorem compute_some_elim (u : User) (t : List Tweet) (now : Int)
    (r : ScoreResult) (h : compute_fake_score u t now = some r) :
    ∃ created, u.created_at = some created ∧
      r.account_age_days = Int.fdiv (now - created) 86400 ∧
      r.score = max 0 (min 100 ((scoreParts u t r.account_age_days).1)) ∧
      r.good = (scoreParts u t r.account_age_days).2.1 ∧
      r.bad = (scoreParts u t r.account_age_days).2.2 := by
  unfold compute_fake_score at h
  cases hc : u.created_at with
  | none => rw [hc] at h; cases h
  | some c =>
    rw [hc] at h
    dsimp only at h
    rw [Option.some_inj] at h
    subst h
    exact ⟨c, rfl, rfl, rfl, rfl, rfl⟩

theorem scoreParts_unverify_delta (u : User) (t : List Tweet) (age : Int)
    (h : u.verified = true) :
    (scoreParts u t age).1 =
      (scoreParts { u with verified := false } t age).1 - 25 := by
  obtain ⟨d, p, v, c, m⟩ := u
  subst h
  simp only [scoreParts, rule4, if_true, Bool.false_eq_true, if_false]
  ring

theorem rule1_len (f g : Int) :
    (rule1 f g).2.1.length + (rule1 f g).2.2.length ≤ 1 ∧
      ((rule1 f g).2.1 = [] ∨ (rule1 f g).2.2 = []) := by
  unfold rule1; split <;> simp

theorem rule2_len (d : Option String) :
    (rule2 d).2.1.length + (rule2 d).2.2.length ≤ 1 ∧
      ((rule2 d).2.1 = [] ∨ (rule2 d).2.2 = []) := by
  unfold rule2; split <;> simp

theorem rule3_len (a : Option String) :
    (rule3 a).2.1.length + (rule3 a).2.2.length ≤ 1 ∧
      ((rule3 a).2.1 = [] ∨ (rule3 a).2.2 = []) := by
  unfold rule3; split <;> simp

theorem rule4_len (v : Bool) :
    (rule4 v).2.1.length + (rule4 v).2.2.length ≤ 1 ∧
      ((rule4 v).2.1 = [] ∨ (rule4 v).2.2 = []) := by
  unfold rule4; split <;> simp

theorem rule5_len (age : Int) :
    (rule5 age).2.1.length + (rule5 age).2.2.length ≤ 1 ∧
      ((rule5 age).2.1 = [] ∨ (rule5 age).2.2 = []) := by
  unfold rule5
  split
  · simp
  · split <;> simp

theorem rule6_len (t : List Tweet) :
    (rule6 t).2.1.length + (rule6 t).2.2.length ≤ 1 ∧
      ((rule6 t).2.1 = [] ∨ (rule6 t).2.2 = []) := by
  unfold rule6; split <;> simp

theorem rule7_len (t : List Tweet) :
    (rule7 t).2.1.length + (rule7 t).2.2.length ≤ 1 ∧
      ((rule7 t).2.1 = [] ∨ (rule7 t).2.2 = []) := by
  unfold rule7
  split
  · simp
  · dsimp only
    split
    · simp
    · split <;> simp

theorem evaluatedRuleParts_good (u : User) (t : List Tweet) (age : Int) :
    ((evaluatedRuleParts u t age).map (fun p => p.2.1)).flatten =
      (scoreParts u t age).2.1 := by
  by_cases ht : t = []
  · subst ht
    simp [evaluatedRuleParts, scoreParts, rule6, rule7]
  · simp [evaluatedRuleParts, scoreParts, ht]

theorem evaluatedRuleParts_bad (u : User) (t : List Tweet) (age : Int) :
    ((evaluatedRuleParts u t age).map (fun p => p.2.2)).flatten =
      (scoreParts u t age).2.2 := by
  by_cases ht : t = []
  · subst ht
    simp [evaluatedRuleParts, scoreParts, rule6, rule7]
  · simp [evaluatedRuleParts, scoreParts, ht]

/-- C1: whenever `compute_fake_score` returns a report, its score lies in
the closed interval [0, 100]: it is the rule-delta total clamped by
`max(0, min(100, total))`, flooring negative totals at 0 and capping
totals above 100 at 100. -/
theorem c1_score_in_range (u : User) (t : List Tweet) (now : Int)
    (r : ScoreResult) (h : compute_fake_score u t now = some r) :
    0 ≤ r.score ∧ r.score ≤ 100 ∧
      r.score = max 0 (min 100 ((scoreParts u t r.account_age_days).1)) := by
  obtain ⟨c, -, -, hs, -, -⟩ := compute_some_elim u t now r h
  exact ⟨hs ▸ le_max_left 0 _, hs ▸ max_le (by norm_num) (min_le_left _ _), hs⟩

/-- C1 witness: the bounds at a concrete input. -/
theorem c1_score_in_range_witness :
    compute_fake_score sampleOld [] 432000 = some resultOld5 ∧
      (0 ≤ resultOld5.score ∧ resultOld5.score ≤ 100 ∧
        resultOld5.score =
          max 0 (min 100 ((scoreParts sampleOld [] resultOld5.account_age_days).1))) :=
  ⟨by decide, c1_score_in_range sampleOld [] 432000 resultOld5 (by decide)⟩

/-- C2 counterexample: with an unverified profile and an empty post list,
rule 4 is among the evaluated rules yet appends a reason string to
neither list, refuting "each evaluated rule appends a reason string to
exactly one of the two lists". -/
theorem c2_counterexample :
    ¬ ∀ p ∈ evaluatedRuleParts sampleOld [] 500,
        p.2.1.length + p.2.2.length = 1 := by decide

/-- C2 (amended): the `good` and `bad` lists are disjoint in content,
they are exactly the concatenated per-rule appends, and each evaluated
rule appends at most one reason string and never to both lists (rules 4
and 6 may append none). -/
theorem c2_reason_lists (u : User) (t : List Tweet) (now : Int)
    (r : ScoreResult) (h : compute_fake_score u t now = some r) :
    (∀ s ∈ r.good, s ∉ r.bad) ∧
      r.good = ((evaluatedRuleParts u t r.account_age_days).map
        (fun p => p.2.1)).flatten ∧
      r.bad = ((evaluatedRuleParts u t r.account_age_days).map
        (fun p => p.2.2)).flatten ∧
      ∀ p ∈ evaluatedRuleParts u t r.account_age_days,
        p.2.1.length + p.2.2.length ≤ 1 ∧ (p.2.1 = [] ∨ p.2.2 = []) := by
  obtain ⟨c, -, -, -, hg, hb⟩ := compute_some_elim u t now r h
  refine ⟨?_, ?_, ?_, ?_⟩
  · intro s hsg hsb
    rw [hg] at hsg
    rw [hb] at hsb
    exact absurd (scoreParts_bad_plus u t _ s hsb) (scoreParts_good_plus u t _ s hsg)
  · rw [hg]
    exact (evaluatedRuleParts_good u t _).symm
  · rw [hb]
    exact (evaluatedRuleParts_bad u t _).symm
  · intro p hp
    unfold evaluatedRuleParts at hp
    rcases List.mem_append.mp hp with h5 | h67
    · simp only [List.mem_cons, List.not_mem_nil, or_false] at h5
      rcases h5 with hh | hh | hh | hh | hh <;> subst hh
      · exact rule1_len _ _
      · exact rule2_len _
      · exact rule3_len _
      · exact rule4_len _
      · exact rule5_len _
    · by_cases ht : t = []
      · rw [if_pos ht] at h67
        simp at h67
      · rw [if_neg ht] at h67
        simp only [List.mem_cons, List.not_mem_nil, or_false] at h67
        rcases h67 with hh | hh <;> subst hh
        · exact rule6_len _
        · exact rule7_len _

/-- C2 witness: disjointness of the two reason lists at a concrete input. -/
theorem c2_reason_lists_witness :
    compute_fake_score sampleOld [] 432000 = some resultOld5 ∧
      ∀ s ∈ resultOld5.good, s ∉ resultOld5.bad :=
  ⟨by decide, (c2_reason_lists sampleOld [] 432000 resultOld5 (by decide)).1⟩

/-- C3 counterexample: identical profile and post-list inputs evaluated at
two different clock instants (5 days and 1000 days after account
creation) yield different reports, refuting "two invocations with
identical profile and post-list inputs return identical results" for the
clock-reading code. -/
theorem c3_counterexample :
    compute_fake_score sampleOld [] 432000 ≠
      compute_fake_score sampleOld [] 86400000 := by decide

/-- C3 (amended): the scoring engine is deterministic in its profile,
post-list, and clock-reading inputs: invocations agreeing on all three
return identical results.  (The Python function reads `datetime.now`
internally, which is the `now` argument here.) -/
theorem c3_deterministic (u1 u2 : User) (t1 t2 : List Tweet) (n1 n2 : Int)
    (hu : u1 = u2) (ht : t1 = t2) (hn : n1 = n2) :
    compute_fake_score u1 t1 n1 = compute_fake_score u2 t2 n2 := by
  subst hu; subst ht; subst hn; rfl

/-- C3 witness: determinism instantiated at a concrete input. -/
theorem c3_deterministic_witness :
    sampleOld = sampleOld ∧ ([] : List Tweet) = [] ∧ (432000 : Int) = 432000 ∧
      compute_fake_score sampleOld [] 432000 =
        compute_fake_score sampleOld [] 432000 :=
  ⟨rfl, rfl, rfl,
    c3_deterministic sampleOld sampleOld [] [] 432000 432000 rfl rfl rfl⟩

/-- C4: with an empty post list, rules 6 and 7 are skipped entirely: each
contributes `(0, [], [])`, so the report's reason lists are exactly those
of the five profile rules and the score is the clamp of their deltas
alone. -/
theorem c4_empty_posts_skip (u : User) (now : Int) (r : ScoreResult)
    (h : compute_fake_score u [] now = some r) :
    rule6 [] = (0, [], []) ∧ rule7 [] = (0, [], []) ∧
      r.good =
        (rule1 u.public_metrics.followers_count
            u.public_metrics.following_count).2.1 ++
          (rule2 u.description).2.1 ++ (rule3 u.profile_image_url).2.1 ++
          (rule4 u.verified).2.1 ++ (rule5 r.account_age_days).2.1 ∧
      r.bad =
        (rule1 u.public_metrics.followers_count
            u.public_metrics.following_count).2.2 ++
          (rule2 u.description).2.2 ++ (rule3 u.profile_image_url).2.2 ++
          (rule4 u.verified).2.2 ++ (rule5 r.account_age_days).2.2 ∧
      r.score = max 0 (min 100
        ((rule1 u.public_metrics.followers_count
            u.public_metrics.following_count).1 +
          (rule2 u.description).1 + (rule3 u.profile_image_url).1 +
          (rule4 u.verified).1 + (rule5 r.account_age_days).1)) := by
  obtain ⟨c, -, -, hs, hg, hb⟩ := compute_some_elim u [] now r h
  refine ⟨rfl, rfl, ?_, ?_, ?_⟩
  · rw [hg]
    simp [scoreParts, rule6, rule7]
  · rw [hb]
    simp [scoreParts, rule6, rule7]
  · rw [hs]
    simp [scoreParts, rule6, rule7]

/-- C4 witness: the empty-post-list behavior at a concrete input. -/
theorem c4_empty_posts_skip_witness :
    compute_fake_score sampleOld [] 86400000 = some resultOld1000 ∧
      rule6 [] = (0, [], []) ∧ rule7 [] = (0, [], []) ∧
      resultOld1000.good =
        (rule1 sampleOld.public_metrics.followers_count
            sampleOld.public_metrics.following_count).2.1 ++
          (rule2 sampleOld.description).2.1 ++
          (rule3 sampleOld.profile_image_url).2.1 ++
          (rule4 sampleOld.verified).2.1 ++
          (rule5 resultOld1000.account_age_days).2.1 :=
  ⟨by decide, rfl, rfl,
    ((c4_empty_posts_skip sampleOld 86400000 resultOld1000 (by decide)).2.2).1⟩

theorem linkRegexSearch_eq_sub (l : List Char) :
    linkRegexSearch l =
      (listHasSub "http://".data l || listHasSub "https://".data l ||
        listHasSub "www.".data l) := by
  induction l with
  | nil => decide
  | cons c rest ih =>
    simp only [linkRegexSearch, listHasSub, linkRegexAt, ih]
    generalize listStartsW "http://".data (c :: rest) = a
    generalize listStartsW "https://".data (c :: rest) = b
    generalize listStartsW "www.".data (c :: rest) = d
    generalize listHasSub "http://".data rest = e
    generalize listHasSub "https://".data rest = f
    generalize listHasSub "www.".data rest = g
    cases a <;> cases b <;> cases d <;> cases e <;> cases f <;> cases g <;> rfl

/-- C5 counterexample: a post whose text contains `WWW.` in upper case is
link-containing under the claim's case-insensitive reading but is not
counted by the code's case-sensitive `re.search` (no `re.IGNORECASE`). -/
theorem c5_counterexample :
    ¬ (hasLink "Visit WWW.EXAMPLE.COM today" = true ↔
        claimLinkCI "Visit WWW.EXAMPLE.COM today" = true) := by decide

/-- C5 (amended): a post is counted as link-containing exactly when its
text contains the substring `http://`, `https://`, or `www.`, matched
case-sensitively — substring search, not full-URL validation. -/
theorem c5_link_detection (s : String) :
    hasLink s =
      (strHasSub "http://" s || strHasSub "https://" s ||
        strHasSub "www." s) :=
  linkRegexSearch_eq_sub s.data

/-- C6 counterexample: when both provider attempts fail — each returning
`(None, None)` — the resolver's post-list component is `None`, not the
empty list, and the source label is the secondary provider's `"snscrape"`,
refuting the claimed `(null, [], undefined)` triple. -/
theorem c6_counterexample :
    ¬ (get_user_and_tweets (none, none) (none, none)).2.1 =
        some ([] : List Tweet) := by decide

/-- C6 (amended): when the primary attempt yields no profile and the
secondary attempt fails with `(None, None)`, the resolver returns the
triple `(None, None, "snscrape")`: a null profile, a null (not empty)
post list, and the secondary provider's label. -/
theorem c6_both_fail (xt : Option (List Tweet)) :
    get_user_and_tweets (none, xt) (none, none) =
      (none, none, "snscrape") := rfl

/-- C7: when the primary (X API) attempt yields a profile, the resolver
returns that profile, the primary's posts, and the primary path's fixed
source label, independently of the secondary provider's outcome; the
secondary outcome is used — with the `"snscrape"` label — exactly when
the primary yields no profile. -/
theorem c7_provider_priority (u : User) (xt : Option (List Tweet))
    (sns sns2 : Option User × Option (List Tweet)) :
    get_user_and_tweets (some u, xt) sns = (some u, xt, xSourceLabel) ∧
      get_user_and_tweets (some u, xt) sns =
        get_user_and_tweets (some u, xt) sns2 ∧
      get_user_and_tweets (none, xt) sns = (sns.1, sns.2, "snscrape") :=
  ⟨rfl, rfl, rfl⟩

/-- C8: whenever the report is produced, a verified profile receives
exactly one `-25` delta — the rule-delta total is exactly 25 below the
total for the same profile with `verified := false`, subject only to the
final clamp — and exactly one corresponding `good` entry, never a `bad`
one; an unverified profile gets a 0 delta and no such entry. -/
theorem c8_verified_delta (u : User) (t : List Tweet) (now : Int)
    (r : ScoreResult) (h : compute_fake_score u t now = some r) :
    (u.verified = true →
        r.good.count verifiedMsg = 1 ∧ r.bad.count verifiedMsg = 0 ∧
        (rule4 u.verified).1 = -25 ∧
        (scoreParts u t r.account_age_days).1 =
          (scoreParts { u with verified := false } t r.account_age_days).1 - 25 ∧
        r.score = max 0 (min 100 ((scoreParts u t r.account_age_days).1))) ∧
      (u.verified = false →
        (rule4 u.verified).1 = 0 ∧ r.good.count verifiedMsg = 0 ∧
          r.bad.count verifiedMsg = 0) := by
  obtain ⟨c, -, -, hs, hg, hb⟩ := compute_some_elim u t now r h
  have hcnt := scoreParts_count_vmsg u t r.account_age_days
  constructor
  · intro hv
    refine ⟨?_, ?_, by rw [hv]; rfl, scoreParts_unverify_delta u t _ hv, hs⟩
    · rw [hg, hcnt.1]
      simp [hv]
    · rw [hb]
      exact hcnt.2
  · intro hv
    refine ⟨by rw [hv]; rfl, ?_, ?_⟩
    · rw [hg, hcnt.1]
      simp [hv]
    · rw [hb]
      exact hcnt.2

/-- C8 witness: the verified rule at a concrete verified profile. -/
theorem c8_verified_delta_witness :
    compute_fake_score sampleVerified [] 86400000 = some resultVerified ∧
      sampleVerified.verified = true ∧
      (resultVerified.good.count verifiedMsg = 1 ∧
        resultVerified.bad.count verifiedMsg = 0 ∧
        (rule4 sampleVerified.verified).1 = -25 ∧
        (scoreParts sampleVerified [] resultVerified.account_age_days).1 =
          (scoreParts { sampleVerified with verified := false } []
            resultVerified.account_age_days).1 - 25 ∧
        resultVerified.score = max 0 (min 100
          ((scoreParts sampleVerified [] resultVerified.account_age_days).1))) :=
  ⟨by decide, rfl,
    (c8_verified_delta sampleVerified [] 86400000 resultVerified (by decide)).1 rfl⟩

/-- C9 counterexample: on the spec's example input (followers=10000,
following=200, long bio, custom avatar, verified, age 1000 days, 20 posts
with 1 link) the `good` list has 6 entries, not the claimed 5. -/
theorem c9_counterexample :
    (compute_fake_score sampleVerified samplePosts20 86400000).map
        (fun r => r.good.length) ≠ some 5 := by
  with_unfolding_all decide

/-- C9 (amended): on that input the per-rule deltas are 0, 0, 0, -25, 0,
and 0 for each of the two post rules; the total -25 floors to a final
score of 0; and the `good` list has exactly 6 entries. -/
theorem c9_scenario :
    compute_fake_score sampleVerified samplePosts20 86400000 =
        some resultScenario ∧
      (rule1 10000 200).1 = 0 ∧
      (rule2 (some "30+ char biography text here")).1 = 0 ∧
      (rule3 (some "https://cdn.example.com/avatar.jpg")).1 = 0 ∧
      (rule4 true).1 = -25 ∧ (rule5 1000).1 = 0 ∧
      (rule6 samplePosts20).1 = 0 ∧ (rule7 samplePosts20).1 = 0 ∧
      resultScenario.good.length = 6 ∧ resultScenario.score = 0 := by
  with_unfolding_all decide

/-- C10: the scoring engine returns a report exactly when the profile's
`created_at` is present and parseable; on any profile with `created_at`
absent or unparseable the run aborts (modelled as `none`, the uncaught
`dtparser.parse` exception), so callers must establish that precondition. -/
theorem c10_created_at_total (u : User) (t : List Tweet) (now : Int) :
    (compute_fake_score u t now).isSome = u.created_at.isSome ∧
      compute_fake_score { u with created_at := none } t now = none := by
  constructor
  · cases hc : u.created_at <;> simp [compute_fake_score, hc]
  · rfl
